import Mathlib

/-!
Verification of the Review Approval Consensus Engine of the `app-review`
repository, as a shallow embedding in Lean 4.

The embedding follows the source:
* `backend/reviews/models.py` — `Review.get_approval_summary`,
  `Review.check_and_finalize_status`, `Review.clear_supervisor_approvals`,
  the `ReviewApproval` vote ledger (`unique_together ['review','supervisor']`,
  `update_or_create` upsert semantics, `created_at` set only on creation);
* `backend/reviews/views.py` — `supervisor_review_decision`,
  `admin_override_review`, `resolve_conflict`,
  `validate_supervisor_permissions`, `validate_superuser_permissions`;
* `backend/reviews/serializers.py` — `ReviewUpdateSerializer.update`.

The state holds one review together with its vote ledger, the supervisors
group, and a counter of invocations of the external rating-aggregator
callback (`app.update_average_rating`). Machine-level concerns (HTTP,
database locking, e-mail notification) are outside the embedding; the
claims are about the sequential state-transition semantics, which the
row-level lock serializes in the source.
-/

namespace AppReview

/-- Review lifecycle states, from `Review.STATUS_CHOICES`. -/
inductive Status
  | pending
  | approved
  | rejected
  | conflict
deriving DecidableEq, Repr

/-- Supervisor vote decisions, from `ReviewApproval.DECISION_CHOICES`. -/
inductive Decision
  | approved
  | rejected
deriving DecidableEq, Repr

/-- One entry of the vote ledger (`ReviewApproval`). `created_at` is
`auto_now_add`: it is set on creation and not touched by later updates. -/
structure Vote where
  supervisor : Nat
  decision : Decision
  comments : String
  created_at : Nat
deriving DecidableEq, Repr

/-- The metadata keys the engine writes into `Review.metadata` (a JSON map
in the source); keys never written by the engine are not modelled. -/
structure Metadata where
  admin_override : Bool := false
  original_status : Option Status := none
  override_timestamp : Option Nat := none
  overridden_by : Option Nat := none
  conflict_resolved : Bool := false
  resolved_by : Option Nat := none
  resolution_timestamp : Option Nat := none
  resolution_notes : Option String := none
deriving DecidableEq, Repr

/-- The fields of `Review` the engine reads or writes. `reviewed_by` /
`reviewed_at` are the finalization metadata (`decided_by` / `decided_at`
of the spec); `rejection_reason` is a text field, the empty string playing
the role of NULL/blank. -/
structure Review where
  user : Nat
  title : Option String := none
  content : String := ""
  rating : Nat := 1
  status : Status := Status.pending
  reviewed_by : Option Nat := none
  reviewed_at : Option Nat := none
  rejection_reason : String := ""
  tags : List String := []
  metadata : Metadata := {}
deriving DecidableEq, Repr

/-- A caller identity: `django.contrib.auth` user fields the engine checks. -/
structure UserT where
  id : Nat
  is_active : Bool := true
  is_superuser : Bool := false
deriving DecidableEq, Repr

/-- Engine state: one review, its vote ledger (`review.approvals`), the
members of the `supervisors` group, and a counter of rating-aggregator
callback invocations (`app.update_average_rating`). -/
structure State where
  review : Review
  approvals : List Vote := []
  supervisors : List Nat := []
  ratingRecomputes : Nat := 0
deriving DecidableEq, Repr

/-- Structured errors surfaced by the views: `PermissionDenied` (403),
the not-pending / not-conflict guard responses (400, carrying the current
status in their message), and malformed-value responses (400). -/
inductive Error
  | forbidden (msg : String)
  | notFound
  | invalidState (current : Status)
  | validationError
deriving DecidableEq, Repr

/-- `approvals.filter(decision=d).count()`. -/
def countDecision (votes : List Vote) (d : Decision) : Nat :=
  (votes.filter (fun v => v.decision == d)).length

/-- `order_by('-created_at').first()`: an entry with the greatest
`created_at` (the first such, on ties). -/
def latestBy (votes : List Vote) : Option Vote :=
  votes.foldl
    (fun best v =>
      match best with
      | none => some v
      | some w => if w.created_at < v.created_at then some v else some w)
    none

/-- The tally, from `Review.get_approval_summary`: Python ints, so the
`pending` component is an integer that the source does not clamp. -/
structure Summary where
  total_supervisors : Nat
  approved : Nat
  rejected : Nat
  pending : Int
deriving DecidableEq, Repr

/-- `Review.get_approval_summary` (models.py:117-143): all-zero short
circuit for finalized reviews, otherwise ledger counts against the current
size of the `supervisors` group. -/
def get_approval_summary (r : Review) (approvals : List Vote)
    (supervisors : List Nat) : Summary :=
  if r.status = Status.approved ∨ r.status = Status.rejected then
    { total_supervisors := 0, approved := 0, rejected := 0, pending := 0 }
  else
    let approved_count := countDecision approvals Decision.approved
    let rejected_count := countDecision approvals Decision.rejected
    let total_supervisors := supervisors.length
    { total_supervisors := total_supervisors
      approved := approved_count
      rejected := rejected_count
      pending := (total_supervisors : Int) - approved_count - rejected_count }

/-- `Review.check_and_finalize_status` (models.py:157-204). Returns the
updated review, the status string the method returns, and whether the
rating-aggregator callback (`self.app.update_average_rating()`) fired. -/
def check_and_finalize_status (r : Review) (approvals : List Vote)
    (supervisors : List Nat) (now : Nat) : Review × Status × Bool :=
  let summary := get_approval_summary r approvals supervisors
  let total_decisions := summary.approved + summary.rejected
  let all_voted := total_decisions = summary.total_supervisors
  let majority_threshold := summary.total_supervisors / 2 + 1
  if summary.approved ≥ majority_threshold then
    let latest_approval :=
      latestBy (approvals.filter (fun v => v.decision == Decision.approved))
    let r1 := { r with status := Status.approved, reviewed_at := some now }
    let r2 :=
      match latest_approval with
      | some v => { r1 with reviewed_by := some v.supervisor }
      | none => r1
    (r2, Status.approved, true)
  else if summary.rejected ≥ majority_threshold then
    let latest_rejection :=
      latestBy (approvals.filter (fun v => v.decision == Decision.rejected))
    let r1 := { r with status := Status.rejected, reviewed_at := some now }
    let r2 :=
      match latest_rejection with
      | some v =>
          let r2a := { r1 with reviewed_by := some v.supervisor }
          if v.comments ≠ "" then { r2a with rejection_reason := v.comments }
          else r2a
      | none => r1
    (r2, Status.rejected, false)
  else if all_voted ∧ summary.approved = summary.rejected then
    ({ r with status := Status.conflict, reviewed_at := some now },
      Status.conflict, false)
  else
    (r, Status.pending, false)

/-- `ReviewApproval.objects.update_or_create` keyed by (review, supervisor):
replaces the decision/comments of an existing entry (keeping its
`created_at`), otherwise appends a new entry; the Bool is `created`. -/
def update_or_create (approvals : List Vote) (sup : Nat) (d : Decision)
    (c : String) (now : Nat) : List Vote × Bool :=
  if approvals.any (fun v => v.supervisor == sup) then
    (approvals.map
      (fun v =>
        if v.supervisor == sup then { v with decision := d, comments := c }
        else v),
      false)
  else
    (approvals ++ [{ supervisor := sup, decision := d, comments := c,
                     created_at := now }],
      true)

/-- The per-entry effect of the ledger upsert: the entry of the voting
supervisor gets the new decision and comments (keeping `created_at`),
every other entry is untouched. -/
def upsertEntry (sup : Nat) (d : Decision) (c : String) (v : Vote) : Vote :=
  if v.supervisor == sup then { v with decision := d, comments := c } else v

/-- `validate_supervisor_permissions` (views.py): active + member of the
`supervisors` group, else `PermissionDenied`. -/
def validate_supervisor_permissions (caller : UserT)
    (supervisors : List Nat) : Except Error Unit :=
  if ¬ caller.is_active then
    Except.error (Error.forbidden "User account is inactive")
  else if caller.id ∈ supervisors then Except.ok ()
  else Except.error (Error.forbidden "Supervisor privileges required")

/-- `validate_superuser_permissions` (views.py): active + `is_superuser`,
else `PermissionDenied`. -/
def validate_superuser_permissions (caller : UserT) : Except Error Unit :=
  if ¬ caller.is_active then
    Except.error (Error.forbidden "User account is inactive")
  else if caller.is_superuser then Except.ok ()
  else Except.error (Error.forbidden "Superuser privileges required")

/-- The payload `supervisor_review_decision` returns on success. -/
structure VoteResponse where
  review_status : Status
  approval_summary : Summary
  my_decision : Decision
deriving DecidableEq, Repr

/-- `supervisor_review_decision` (views.py:464-566): permission check,
re-check inside the transaction, pending guard naming the current status,
ledger upsert, finalization check, fresh summary. The rating counter is
bumped when finalization fired the aggregator callback. -/
def supervisor_review_decision (s : State) (caller : UserT)
    (decision : Decision) (comments : String) (now : Nat) :
    Except Error (State × VoteResponse) :=
  match validate_supervisor_permissions caller s.supervisors with
  | Except.error e => Except.error e
  | Except.ok _ =>
    if s.review.status ≠ Status.pending then
      Except.error (Error.invalidState s.review.status)
    else
      let upsert := update_or_create s.approvals caller.id decision comments now
      let approvals1 := upsert.1
      let fin := check_and_finalize_status s.review approvals1 s.supervisors now
      let r1 := fin.1
      let cb := fin.2.2
      let summary := get_approval_summary r1 approvals1 s.supervisors
      Except.ok
        ({ s with
            review := r1
            approvals := approvals1
            ratingRecomputes :=
              if cb then s.ratingRecomputes + 1 else s.ratingRecomputes },
          { review_status := r1.status
            approval_summary := summary
            my_decision := decision })

/-- `admin_override_review` (views.py:775-884): superuser only; target
status validated to be approved/rejected/pending; moving to pending clears
the ledger and the finalization fields, moving to approved/rejected stamps
the arbiter; the override marker is written to metadata in every case, and
the aggregator is invoked when the new status is approved. -/
def admin_override_review (s : State) (caller : UserT) (new_status : Status)
    (rejection_reason : String) (now : Nat) : Except Error State :=
  match validate_superuser_permissions caller with
  | Except.error e => Except.error e
  | Except.ok _ =>
    if new_status = Status.conflict then Except.error Error.validationError
    else
      let r := s.review
      let original_status := r.status
      let step :=
        if new_status = Status.pending then
          ({ r with reviewed_by := none, reviewed_at := none,
                    rejection_reason := "" },
            ([] : List Vote))
        else
          ({ r with
              reviewed_by := some caller.id
              reviewed_at := some now
              rejection_reason :=
                if new_status = Status.rejected then
                  if rejection_reason ≠ "" then
                    "Admin Override: " ++ rejection_reason
                  else "Admin Override: No reason provided"
                else r.rejection_reason },
            s.approvals)
      let r1 := step.1
      let r2 :=
        { r1 with
            status := new_status
            metadata :=
              { r1.metadata with
                  admin_override := true
                  original_status := some original_status
                  override_timestamp := some now
                  overridden_by := some caller.id } }
      Except.ok
        { s with
            review := r2
            approvals := step.2
            ratingRecomputes :=
              if new_status = Status.approved then s.ratingRecomputes + 1
              else s.ratingRecomputes }

/-- `resolve_conflict` (views.py:617-724): superuser only; conflict-status
guard naming the current status; sets the chosen outcome with the arbiter
stamped, notes going to `rejection_reason` on a rejected outcome and to
`metadata['resolution_notes']` on an approved one; always writes the
resolution marker; does not touch the vote ledger; invokes the aggregator
on an approved outcome. -/
def resolve_conflict (s : State) (caller : UserT) (final_decision : Decision)
    (resolution_notes : String) (now : Nat) : Except Error State :=
  match validate_superuser_permissions caller with
  | Except.error e => Except.error e
  | Except.ok _ =>
    if s.review.status ≠ Status.conflict then
      Except.error (Error.invalidState s.review.status)
    else
      let finalStatus :=
        match final_decision with
        | Decision.approved => Status.approved
        | Decision.rejected => Status.rejected
      let r1 :=
        { s.review with
            status := finalStatus
            reviewed_by := some caller.id
            reviewed_at := some now }
      let r2 :=
        if resolution_notes ≠ "" then
          if final_decision = Decision.rejected then
            { r1 with
                rejection_reason := "Conflict Resolution: " ++ resolution_notes }
          else
            { r1 with
                metadata :=
                  { r1.metadata with resolution_notes := some resolution_notes } }
        else r1
      let r3 :=
        { r2 with
            metadata :=
              { r2.metadata with
                  conflict_resolved := true
                  resolved_by := some caller.id
                  resolution_timestamp := some now } }
      Except.ok
        { s with
            review := r3
            ratingRecomputes :=
              if final_decision = Decision.approved then s.ratingRecomputes + 1
              else s.ratingRecomputes }

/-- The content-edit data accepted by `ReviewUpdateSerializer`
(`fields = ['title', 'content', 'rating', 'tags']`). -/
structure EditData where
  title : Option String := none
  content : String := ""
  rating : Nat := 1
  tags : List String := []
deriving DecidableEq, Repr

/-- `ReviewUpdateSerializer.update` (serializers.py:143-158): an edit of an
approved/rejected review resets it to pending, clears the finalization
fields and deletes all ledger entries (`clear_supervisor_approvals`);
otherwise only the content fields change. -/
def review_update (s : State) (data : EditData) : State :=
  let r := s.review
  if r.status = Status.approved ∨ r.status = Status.rejected then
    { s with
        review :=
          { r with
              status := Status.pending
              reviewed_by := none
              reviewed_at := none
              rejection_reason := ""
              title := data.title
              content := data.content
              rating := data.rating
              tags := data.tags }
        approvals := [] }
  else
    { s with
        review :=
          { r with
              title := data.title
              content := data.content
              rating := data.rating
              tags := data.tags } }

/-- The state after a vote submission, the source transaction rolling back
to the pre-call state on any error path. -/
def runVote (s : State) (caller : UserT) (d : Decision) (c : String)
    (now : Nat) : State :=
  match supervisor_review_decision s caller d c now with
  | Except.ok out => out.1
  | Except.error _ => s

/-- The state after an admin override, unchanged on error. -/
def runOverride (s : State) (caller : UserT) (new_status : Status)
    (rr : String) (now : Nat) : State :=
  match admin_override_review s caller new_status rr now with
  | Except.ok s1 => s1
  | Except.error _ => s

/-- The state after a conflict resolution, unchanged on error. -/
def runResolve (s : State) (caller : UserT) (d : Decision) (notes : String)
    (now : Nat) : State :=
  match resolve_conflict s caller d notes now with
  | Except.ok s1 => s1
  | Except.error _ => s

/-- Whether an engine call succeeded. -/
def resultOk {α : Type} : Except Error α → Bool
  | Except.ok _ => true
  | Except.error _ => false

/-- `majorityThreshold(totalSupervisors) = floor(totalSupervisors / 2) + 1`
(spec §4.2, and `summary['total_supervisors'] // 2 + 1` in the source). -/
def majorityThreshold (total : Nat) : Nat := total / 2 + 1

/-- The decision rule of claim C1 as amended: the four cases in order —
approved majority, rejected majority, all-voted tie, otherwise unchanged —
with `decided_by` the supervisor of the winning-side vote carrying the
greatest *stored* timestamp and `rejection_reason` taken from that vote's
comment when present. In the source the stored timestamp is `created_at`
(`auto_now_add`), which a revote does not refresh, so this recency is
first-write order; the spec's last-write recency is `recordVoteSpec`
below, and the two are separated by the revote counterexample. Compared
against `check_and_finalize_status`. -/
def finalizeSpec (r : Review) (approvals : List Vote) (supervisors : List Nat)
    (now : Nat) : Review :=
  let a := countDecision approvals Decision.approved
  let j := countDecision approvals Decision.rejected
  let n := supervisors.length
  if a ≥ majorityThreshold n then
    match latestBy (approvals.filter (fun v => v.decision == Decision.approved)) with
    | some v =>
        { r with status := Status.approved, reviewed_by := some v.supervisor,
                 reviewed_at := some now }
    | none => { r with status := Status.approved, reviewed_at := some now }
  else if j ≥ majorityThreshold n then
    match latestBy (approvals.filter (fun v => v.decision == Decision.rejected)) with
    | some v =>
        { r with status := Status.rejected, reviewed_by := some v.supervisor,
                 reviewed_at := some now,
                 rejection_reason :=
                   if v.comments ≠ "" then v.comments else r.rejection_reason }
    | none => { r with status := Status.rejected, reviewed_at := some now }
  else if a + j = n ∧ a = j then
    { r with status := Status.conflict, reviewed_at := some now }
  else r

/-- The spec's ledger write, written from the spec's words: `recordVote`
(§4.1) is an upsert keyed by (review, supervisor) where on revote the
prior vote's "decision/comment/timestamp are replaced" — a vote carries
the "timestamp of last write" (§3). This differs from the source's
`update_or_create`, whose `created_at` is `auto_now_add` and never
refreshed on revote, so the two notions of "most recent vote" separate on
a decision-flipping revote. -/
def recordVoteSpec (approvals : List Vote) (sup : Nat) (d : Decision)
    (c : String) (now : Nat) : List Vote × Bool :=
  if approvals.any (fun v => v.supervisor == sup) then
    (approvals.map
      (fun v =>
        if v.supervisor == sup then
          { v with decision := d, comments := c, created_at := now }
        else v),
      false)
  else
    (approvals ++ [{ supervisor := sup, decision := d, comments := c,
                     created_at := now }],
      true)

/-- The ledger the source produces from the revote history "supervisor 10
votes rejected at t=1, supervisor 11 approves at t=2, supervisor 10 flips
to approve at t=3": 10's entry keeps `created_at = 1`. -/
def revoteVotesCode : List Vote :=
  (update_or_create
    (update_or_create
      (update_or_create [] 10 Decision.rejected "" 1).1
      11 Decision.approved "" 2).1
    10 Decision.approved "" 3).1

/-- The same revote history under the spec's last-write timestamps: 10's
vote carries timestamp 3 after the flip. -/
def revoteVotesSpec : List Vote :=
  (recordVoteSpec
    (recordVoteSpec
      (recordVoteSpec [] 10 Decision.rejected "" 1).1
      11 Decision.approved "" 2).1
    10 Decision.approved "" 3).1

/-- A supervisor caller (active member of the `supervisors` group of
`rosterThree`). -/
def supA : UserT := { id := 10 }

/-- A superuser caller (arbiter). -/
def arbiterUser : UserT := { id := 99, is_superuser := true }

/-- A three-member `supervisors` group. -/
def rosterThree : List Nat := [10, 11, 12]

/-- A pending review in its initial state, with the three-member roster. -/
def pendingState : State :=
  { review := { user := 1, content := "solid app" }, supervisors := rosterThree }

/-- A review already finalized as approved. -/
def approvedState : State :=
  { review := { user := 1, content := "solid app", status := Status.approved,
                reviewed_by := some 11, reviewed_at := some 2 }
    approvals := [{ supervisor := 10, decision := Decision.approved,
                    comments := "", created_at := 1 },
                  { supervisor := 11, decision := Decision.approved,
                    comments := "", created_at := 2 }]
    supervisors := rosterThree }

/-- A review in conflict after a 1-1 split of a two-member roster. -/
def conflictState : State :=
  { review := { user := 1, content := "solid app", status := Status.conflict }
    approvals := [{ supervisor := 10, decision := Decision.approved,
                    comments := "", created_at := 1 },
                  { supervisor := 11, decision := Decision.rejected,
                    comments := "spam", created_at := 2 }]
    supervisors := [10, 11] }

/-- A roster that has shrunk to one supervisor while two votes from
since-removed supervisors are still on the ledger. -/
def shrunkState : State :=
  { review := { user := 1, content := "solid app" }
    approvals := [{ supervisor := 20, decision := Decision.approved,
                    comments := "", created_at := 1 },
                  { supervisor := 21, decision := Decision.approved,
                    comments := "", created_at := 2 }]
    supervisors := [10] }

/-! ## Theorems -/

lemma summary_not_finalized (r : Review) (approvals : List Vote)
    (supervisors : List Nat) (h1 : r.status ≠ Status.approved)
    (h2 : r.status ≠ Status.rejected) :
    get_approval_summary r approvals supervisors =
      { total_supervisors := supervisors.length
        approved := countDecision approvals Decision.approved
        rejected := countDecision approvals Decision.rejected
        pending := (supervisors.length : Int)
          - countDecision approvals Decision.approved
          - countDecision approvals Decision.rejected } := by
  simp [get_approval_summary, h1, h2]

/-- Counterexample to claim C1 as stated: with the three-member roster and
the reachable revote history "10 votes rejected at t=1, 11 approves at
t=2, 10 flips to approve at t=3", both readings finalize the review
approved, but the code stamps `decided_by = 11` — the greatest
never-refreshed `created_at` among approving entries — while the claim's
"most recent approving vote" under the spec's last-write timestamps (§3,
§4.1) is 10's flipped vote, so the rule's decider is 10. -/
theorem c1_counterexample_revote_recency :
    (check_and_finalize_status pendingState.review revoteVotesCode
        rosterThree 4).2.1 = Status.approved ∧
    (check_and_finalize_status pendingState.review revoteVotesCode
        rosterThree 4).1.reviewed_by = some 11 ∧
    (finalizeSpec pendingState.review revoteVotesSpec rosterThree 4
        ).reviewed_by = some 10 := by
  decide

/-- Claim C1 as amended: for a pending review, the finalization check
applies the decision rule in the claimed order — approved majority with
threshold `floor(total/2) + 1` wins first (decided_at stamped), then
rejected majority (rejection_reason from the winning vote's comment when
present), then the all-voted tie becomes conflict, otherwise the review
stays pending — where `decided_by` is the supervisor of the winning-side
vote with the greatest creation timestamp: a revote overwrites decision
and comment but does not refresh the vote's timestamp. The returned
status matches the review written. -/
theorem c1_finalize_follows_majority_rule
    (r : Review) (approvals : List Vote) (supervisors : List Nat) (now : Nat)
    (h : r.status = Status.pending) :
    (check_and_finalize_status r approvals supervisors now).1
        = finalizeSpec r approvals supervisors now ∧
    (check_and_finalize_status r approvals supervisors now).2.1
        = (finalizeSpec r approvals supervisors now).status := by
  have h1 : r.status ≠ Status.approved := by simp [h]
  have h2 : r.status ≠ Status.rejected := by simp [h]
  refine ⟨?_, ?_⟩ <;>
  · simp only [check_and_finalize_status,
      summary_not_finalized r approvals supervisors h1 h2,
      finalizeSpec, majorityThreshold, ge_iff_le]
    repeat' split
    all_goals first
      | rfl
      | simp_all

/-- Witness for C1 as amended: a pending two-approval state under the
three-member roster crosses the threshold and the code and the amended
rule agree on it. -/
theorem c1_finalize_follows_majority_rule_witness :
    pendingState.review.status = Status.pending ∧
    (check_and_finalize_status pendingState.review
        [{ supervisor := 10, decision := Decision.approved, comments := "",
           created_at := 1 },
         { supervisor := 11, decision := Decision.approved, comments := "",
           created_at := 2 }] rosterThree 3).1
      = finalizeSpec pendingState.review
        [{ supervisor := 10, decision := Decision.approved, comments := "",
           created_at := 1 },
         { supervisor := 11, decision := Decision.approved, comments := "",
           created_at := 2 }] rosterThree 3 :=
  ⟨rfl,
    (c1_finalize_follows_majority_rule pendingState.review
      [{ supervisor := 10, decision := Decision.approved, comments := "",
         created_at := 1 },
       { supervisor := 11, decision := Decision.approved, comments := "",
         created_at := 2 }] rosterThree 3 rfl).1⟩

/-- Claim C10: with an empty supervisor roster and an empty vote ledger, the
finalization check moves a pending review to `conflict` (threshold is
`0 / 2 + 1 = 1`, the all-voted condition `0 + 0 = 0` holds, and zero
approvals equal zero rejections), rather than leaving it pending. -/
theorem c10_empty_roster_conflict (r : Review) (now : Nat)
    (h : r.status = Status.pending) :
    (check_and_finalize_status r [] [] now).2.1 = Status.conflict ∧
    (check_and_finalize_status r [] [] now).1.status = Status.conflict := by
  have h1 : r.status ≠ Status.approved := by simp [h]
  have h2 : r.status ≠ Status.rejected := by simp [h]
  simp [check_and_finalize_status, summary_not_finalized r [] [] h1 h2,
    countDecision]

/-- Witness for C10: the concrete pending review of `pendingState` under an
empty roster and ledger is marked conflict. -/
theorem c10_empty_roster_conflict_witness :
    pendingState.review.status = Status.pending ∧
    (check_and_finalize_status pendingState.review [] [] 7).2.1
      = Status.conflict :=
  ⟨rfl, (c10_empty_roster_conflict pendingState.review 7 rfl).1⟩

/-- Claim C2 (code evaluated at the failing input): when the roster has
shrunk to one supervisor while two approving ledger entries remain, the
tally's `pending` component is `1 - 2 - 0 = -1`, which is negative — the
source computes `total_supervisors - approved - rejected` without the
clamp the claim (and the repo's own `test_approval_summary` command, which
prints an error on a negative pending count) requires. -/
theorem c2_negative_pending :
    (get_approval_summary shrunkState.review shrunkState.approvals
        shrunkState.supervisors).pending = -1 ∧
    (get_approval_summary shrunkState.review shrunkState.approvals
        shrunkState.supervisors).pending < 0 := by
  decide

/-- Claim C3: a vote by an active supervisor on a review already finalized
as approved or rejected fails with `InvalidState` carrying the current
status, and the state — status, ledger, finalization metadata — is
untouched; in particular an approved review stays approved under any
further supervisor vote attempt. -/
theorem c3_finalized_rejects_votes (s : State) (caller : UserT) (d : Decision)
    (c : String) (now : Nat)
    (hstat : s.review.status = Status.approved
        ∨ s.review.status = Status.rejected)
    (hact : caller.is_active = true) (hsup : caller.id ∈ s.supervisors) :
    supervisor_review_decision s caller d c now
        = Except.error (Error.invalidState s.review.status) ∧
    runVote s caller d c now = s ∧
    (runVote s caller d c now).review.status = s.review.status := by
  have hperm : validate_supervisor_permissions caller s.supervisors
      = Except.ok () := by
    simp [validate_supervisor_permissions, hact, hsup]
  have hne : s.review.status ≠ Status.pending := by
    rcases hstat with h | h <;> simp [h]
  have herr : supervisor_review_decision s caller d c now
      = Except.error (Error.invalidState s.review.status) := by
    simp [supervisor_review_decision, hperm, hne]
  refine ⟨herr, ?_, ?_⟩ <;> simp [runVote, herr]

/-- Witness for C3: the concrete approved review of `approvedState` rejects
a further vote by supervisor `supA` with `InvalidState approved` and is
unchanged. -/
theorem c3_finalized_rejects_votes_witness :
    (approvedState.review.status = Status.approved
        ∨ approvedState.review.status = Status.rejected) ∧
    supA.is_active = true ∧ supA.id ∈ approvedState.supervisors ∧
    supervisor_review_decision approvedState supA Decision.rejected "late" 9
      = Except.error (Error.invalidState Status.approved) :=
  ⟨Or.inl rfl, rfl, by decide,
    (c3_finalized_rejects_votes approvedState supA Decision.rejected "late" 9
      (Or.inl rfl) rfl (by decide)).1⟩

/-- Claim C4: an arbiter override to any of approved/rejected/pending
succeeds from every current status; pending clears the ledger and the
finalization fields, approved/rejected stamp the arbiter as decider; the
override marker (previous status, timestamp, actor) is recorded in
metadata, and the rating-aggregator callback fires exactly when the new
status is approved. -/
theorem c4_admin_override (s : State) (caller : UserT) (tgt : Status)
    (rr : String) (now : Nat) (hact : caller.is_active = true)
    (hsu : caller.is_superuser = true) (htgt : tgt ≠ Status.conflict) :
    resultOk (admin_override_review s caller tgt rr now) = true ∧
    (runOverride s caller tgt rr now).review.status = tgt ∧
    (runOverride s caller tgt rr now).review.metadata.admin_override = true ∧
    (runOverride s caller tgt rr now).review.metadata.original_status
        = some s.review.status ∧
    (runOverride s caller tgt rr now).review.metadata.override_timestamp
        = some now ∧
    (runOverride s caller tgt rr now).review.metadata.overridden_by
        = some caller.id ∧
    (runOverride s caller tgt rr now).approvals
        = (if tgt = Status.pending then [] else s.approvals) ∧
    (runOverride s caller tgt rr now).review.reviewed_by
        = (if tgt = Status.pending then none else some caller.id) ∧
    (runOverride s caller tgt rr now).review.reviewed_at
        = (if tgt = Status.pending then none else some now) ∧
    (runOverride s caller tgt rr now).review.rejection_reason
        = (if tgt = Status.pending then ""
           else if tgt = Status.rejected then
             (if rr ≠ "" then "Admin Override: " ++ rr
              else "Admin Override: No reason provided")
           else s.review.rejection_reason) ∧
    (runOverride s caller tgt rr now).ratingRecomputes
        = (if tgt = Status.approved then s.ratingRecomputes + 1
           else s.ratingRecomputes) := by
  have hperm : validate_superuser_permissions caller = Except.ok () := by
    simp [validate_superuser_permissions, hact, hsu]
  cases tgt <;>
    simp_all [admin_override_review, runOverride, resultOk]

/-- Witness for C4: overriding the concrete conflicted review of
`conflictState` to approved succeeds. -/
theorem c4_admin_override_witness :
    arbiterUser.is_active = true ∧ arbiterUser.is_superuser = true ∧
    Status.approved ≠ Status.conflict ∧
    resultOk (admin_override_review conflictState arbiterUser Status.approved
        "" 9) = true :=
  ⟨rfl, rfl, by decide,
    (c4_admin_override conflictState arbiterUser Status.approved "" 9
      rfl rfl (by decide)).1⟩

/-- Claim C8: conflict resolution by an arbiter fails with `InvalidState`
carrying the current status on every non-conflict review (leaving the
state untouched), and on a conflict review sets the chosen outcome, stamps
the resolution marker (resolved flag, resolver, timestamp) into metadata,
and leaves the vote ledger — every vote's supervisor, decision and
comment — unchanged. -/
theorem c8_resolve_conflict_frame (s : State) (caller : UserT) (d : Decision)
    (notes : String) (now : Nat) (hact : caller.is_active = true)
    (hsu : caller.is_superuser = true) :
    resolve_conflict s caller d notes now
        = (if s.review.status = Status.conflict then
             Except.ok (runResolve s caller d notes now)
           else Except.error (Error.invalidState s.review.status)) ∧
    (runResolve s caller d notes now).approvals = s.approvals ∧
    (runResolve s caller d notes now).review.status
        = (if s.review.status = Status.conflict then
             (match d with
              | Decision.approved => Status.approved
              | Decision.rejected => Status.rejected)
           else s.review.status) ∧
    (runResolve s caller d notes now).review.metadata.conflict_resolved
        = (if s.review.status = Status.conflict then true
           else s.review.metadata.conflict_resolved) ∧
    (runResolve s caller d notes now).review.metadata.resolved_by
        = (if s.review.status = Status.conflict then some caller.id
           else s.review.metadata.resolved_by) ∧
    (runResolve s caller d notes now).review.metadata.resolution_timestamp
        = (if s.review.status = Status.conflict then some now
           else s.review.metadata.resolution_timestamp) := by
  have hperm : validate_superuser_permissions caller = Except.ok () := by
    simp [validate_superuser_permissions, hact, hsu]
  by_cases hc : s.review.status = Status.conflict
  · cases d <;>
      by_cases hn : notes = "" <;>
        simp_all [resolve_conflict, runResolve]
  · simp_all [resolve_conflict, runResolve]

/-- Witness for C8: resolving the concrete conflicted review of
`conflictState` as rejected leaves its two-vote ledger intact. -/
theorem c8_resolve_conflict_frame_witness :
    arbiterUser.is_active = true ∧ arbiterUser.is_superuser = true ∧
    (runResolve conflictState arbiterUser Decision.rejected "split vote" 9
        ).approvals = conflictState.approvals :=
  ⟨rfl, rfl,
    (c8_resolve_conflict_frame conflictState arbiterUser Decision.rejected
      "split vote" 9 rfl rfl).2.1⟩

/-- Claim C7: a content edit of an approved or rejected review reopens it —
status back to pending, decider/decided-at/rejection-reason cleared, every
ledger vote deleted — while applying the new content, so a fresh vote
cycle starts from a clean ledger. -/
theorem c7_edit_reopens (s : State) (data : EditData)
    (h : s.review.status = Status.approved
        ∨ s.review.status = Status.rejected) :
    (review_update s data).review.status = Status.pending ∧
    (review_update s data).review.reviewed_by = none ∧
    (review_update s data).review.reviewed_at = none ∧
    (review_update s data).review.rejection_reason = "" ∧
    (review_update s data).approvals = [] ∧
    (review_update s data).review.content = data.content ∧
    (review_update s data).review.rating = data.rating ∧
    (review_update s data).supervisors = s.supervisors := by
  rcases h with h | h <;> simp [review_update, h]

/-- Witness for C7: editing the concrete approved review of `approvedState`
reopens it to pending with an empty ledger. -/
theorem c7_edit_reopens_witness :
    (approvedState.review.status = Status.approved
        ∨ approvedState.review.status = Status.rejected) ∧
    (review_update approvedState { content := "better text" }).review.status
      = Status.pending :=
  ⟨Or.inl rfl,
    (c7_edit_reopens approvedState { content := "better text" }
      (Or.inl rfl)).1⟩

/-- Claim C9 (implicit): a content edit of a conflicted review does not
touch its moderation state — status stays conflict, the ledger and the
finalization metadata are unchanged — so only arbiter action can move a
review out of conflict. -/
theorem c9_edit_keeps_conflict (s : State) (data : EditData)
    (h : s.review.status = Status.conflict) :
    (review_update s data).review.status = Status.conflict ∧
    (review_update s data).approvals = s.approvals ∧
    (review_update s data).review.reviewed_by = s.review.reviewed_by ∧
    (review_update s data).review.reviewed_at = s.review.reviewed_at ∧
    (review_update s data).review.rejection_reason
        = s.review.rejection_reason ∧
    (review_update s data).review.metadata = s.review.metadata ∧
    (review_update s data).ratingRecomputes = s.ratingRecomputes := by
  simp [review_update, h]

/-- Witness for C9: editing the concrete conflicted review of
`conflictState` leaves it in conflict with its ledger intact. -/
theorem c9_edit_keeps_conflict_witness :
    conflictState.review.status = Status.conflict ∧
    (review_update conflictState { content := "reworded" }).review.status
      = Status.conflict :=
  ⟨rfl,
    (c9_edit_keeps_conflict conflictState { content := "reworded" } rfl).1⟩

lemma upsert_existing (l : List Vote) (sup : Nat) (d : Decision) (c : String)
    (t : Nat) (hmem : l.any (fun v => v.supervisor == sup) = true) :
    update_or_create l sup d c t = (l.map (upsertEntry sup d c), false) := by
  simp only [update_or_create, hmem, if_true]
  rfl

lemma upsertEntry_supervisor (sup : Nat) (d : Decision) (c : String)
    (v : Vote) : (upsertEntry sup d c v).supervisor = v.supervisor := by
  simp only [upsertEntry]
  split <;> rfl

lemma map_upsert_filter_ne (l : List Vote) (sup : Nat) (d : Decision)
    (c : String) :
    (l.map (upsertEntry sup d c)).filter (fun v => !(v.supervisor == sup))
      = l.filter (fun v => !(v.supervisor == sup)) := by
  induction l with
  | nil => rfl
  | cons v t ih =>
    by_cases hs : v.supervisor = sup <;>
      simp [upsertEntry, hs, List.filter_cons, ih]

lemma map_upsert_filter_eq_all (l : List Vote) (sup : Nat) (d : Decision)
    (c : String) :
    ((l.map (upsertEntry sup d c)).filter (fun v => v.supervisor == sup)).all
        (fun v => v.decision == d && v.comments == c) = true := by
  induction l with
  | nil => rfl
  | cons v t ih =>
    by_cases hs : v.supervisor = sup <;>
      simp [upsertEntry, hs, List.filter_cons, ih]

lemma map_upsert_any (l : List Vote) (sup : Nat) (d : Decision) (c : String) :
    (l.map (upsertEntry sup d c)).any (fun v => v.supervisor == sup)
      = l.any (fun v => v.supervisor == sup) := by
  induction l with
  | nil => rfl
  | cons v t ih =>
    by_cases hs : v.supervisor = sup <;> simp [upsertEntry, hs, ih]

lemma map_upsert_idem (l : List Vote) (sup : Nat) (d : Decision)
    (c : String) :
    (l.map (upsertEntry sup d c)).map (upsertEntry sup d c)
      = l.map (upsertEntry sup d c) := by
  induction l with
  | nil => rfl
  | cons v t ih =>
    by_cases hs : v.supervisor = sup <;> simp [upsertEntry, hs, ih]

lemma countDecision_add (l : List Vote) :
    countDecision l Decision.approved + countDecision l Decision.rejected
      = l.length := by
  induction l with
  | nil => rfl
  | cons v t ih =>
    cases hd : v.decision <;>
      simp [countDecision, List.filter_cons, hd] at ih ⊢ <;> omega

/-- Claim C6: at most one ledger entry per (review, supervisor): a revote
by a supervisor already on the ledger overwrites that entry's decision and
comments in place (`created = false`, same ledger length, all other
entries untouched), repeating the same decision and comment changes the
ledger not at all (timestamps included), and the approved+rejected tally
population never exceeds the original number of entries — no
double-counting. -/
theorem c6_vote_upsert_unique (approvals : List Vote) (sup : Nat)
    (d : Decision) (c : String) (t t2 : Nat)
    (hmem : approvals.any (fun v => v.supervisor == sup) = true) :
    (update_or_create approvals sup d c t).2 = false ∧
    (update_or_create approvals sup d c t).1.length = approvals.length ∧
    (update_or_create approvals sup d c t).1.filter
        (fun v => !(v.supervisor == sup))
      = approvals.filter (fun v => !(v.supervisor == sup)) ∧
    ((update_or_create approvals sup d c t).1.filter
        (fun v => v.supervisor == sup)).all
        (fun v => v.decision == d && v.comments == c) = true ∧
    update_or_create (update_or_create approvals sup d c t).1 sup d c t2
      = ((update_or_create approvals sup d c t).1, false) ∧
    countDecision (update_or_create approvals sup d c t).1 Decision.approved
        + countDecision (update_or_create approvals sup d c t).1
            Decision.rejected
      = approvals.length := by
  rw [upsert_existing approvals sup d c t hmem]
  have hmem2 : (approvals.map (upsertEntry sup d c)).any
      (fun v => v.supervisor == sup) = true := by
    rw [map_upsert_any]; exact hmem
  refine ⟨rfl, List.length_map _ _, map_upsert_filter_ne _ _ _ _,
    map_upsert_filter_eq_all _ _ _ _, ?_, ?_⟩
  · rw [upsert_existing _ sup d c t2 hmem2, map_upsert_idem]
  · rw [countDecision_add, List.length_map]

/-- Witness for C6: supervisor 10 revoting the same approval on a concrete
two-entry ledger leaves `created = false`. -/
theorem c6_vote_upsert_unique_witness :
    ([{ supervisor := 10, decision := Decision.approved, comments := "ok",
        created_at := 1 },
      { supervisor := 11, decision := Decision.rejected, comments := "",
        created_at := 2 }] : List Vote).any (fun v => v.supervisor == 10)
      = true ∧
    (update_or_create
        [{ supervisor := 10, decision := Decision.approved, comments := "ok",
           created_at := 1 },
         { supervisor := 11, decision := Decision.rejected, comments := "",
           created_at := 2 }] 10 Decision.approved "ok" 9).2 = false :=
  ⟨by decide,
    (c6_vote_upsert_unique
      [{ supervisor := 10, decision := Decision.approved, comments := "ok",
         created_at := 1 },
       { supervisor := 11, decision := Decision.rejected, comments := "",
         created_at := 2 }] 10 Decision.approved "ok" 9 11 (by decide)).1⟩

lemma finalize_cb_iff (r : Review) (ap : List Vote) (sup : List Nat) (t : Nat)
    (h : r.status = Status.pending) :
    ((check_and_finalize_status r ap sup t).2.2 = true
      ↔ (check_and_finalize_status r ap sup t).1.status = Status.approved) := by
  have h1 : r.status ≠ Status.approved := by simp [h]
  have h2 : r.status ≠ Status.rejected := by simp [h]
  simp only [check_and_finalize_status, summary_not_finalized r ap sup h1 h2,
    ge_iff_le]
  repeat' split
  all_goals simp_all [h]

/-- Counterexample to claim C5: arbiter conflict resolution — an engine
operation that is neither the vote-driven finalization path nor the
arbiter override — also invokes the rating-aggregator callback when its
outcome is approved (views.py `resolve_conflict`, the
`update_average_rating` call guarded by `final_decision == 'approved'`):
on the concrete conflicted review it succeeds and bumps the callback
counter, so the callback has a third invocation point. -/
theorem c5_counterexample_resolve_invokes_aggregator :
    resultOk (resolve_conflict conflictState arbiterUser Decision.approved
        "tie broken" 9) = true ∧
    (runResolve conflictState arbiterUser Decision.approved "tie broken" 9
        ).ratingRecomputes = conflictState.ratingRecomputes + 1 := by
  decide

/-- Claim C5 as amended: the rating-aggregator callback is invoked at
exactly three points — a vote whose finalization transitions the review to
approved, an arbiter override whose target is approved, and an arbiter
conflict resolution whose outcome is approved — and at no other point of
the engine's operations: a vote not transitioning the review to approved,
an override to rejected or pending, a conflict resolution rejecting, and a
content edit never invoke it. -/
theorem c5_amended_callback_points :
    (∀ (s : State) (u : UserT) (d : Decision) (c : String) (t : Nat),
        (runVote s u d c t).ratingRecomputes
          = if (runVote s u d c t).review.status = Status.approved
                ∧ s.review.status ≠ Status.approved
            then s.ratingRecomputes + 1 else s.ratingRecomputes) ∧
    (∀ (s : State) (u : UserT) (tgt : Status) (rr : String) (t : Nat),
        (runOverride s u tgt rr t).ratingRecomputes
          = if resultOk (admin_override_review s u tgt rr t) = true
                ∧ tgt = Status.approved
            then s.ratingRecomputes + 1 else s.ratingRecomputes) ∧
    (∀ (s : State) (u : UserT) (d : Decision) (notes : String) (t : Nat),
        (runResolve s u d notes t).ratingRecomputes
          = if resultOk (resolve_conflict s u d notes t) = true
                ∧ d = Decision.approved
            then s.ratingRecomputes + 1 else s.ratingRecomputes) ∧
    (∀ (s : State) (data : EditData),
        (review_update s data).ratingRecomputes = s.ratingRecomputes) := by
  refine ⟨?_, ?_, ?_, ?_⟩
  · intro s u d c t
    cases hv : validate_supervisor_permissions u s.supervisors with
    | error e =>
      simp [runVote, supervisor_review_decision, hv, and_not_self_iff]
    | ok x =>
      by_cases hp : s.review.status = Status.pending
      · have hiff := finalize_cb_iff s.review
          (update_or_create s.approvals u.id d c t).1 s.supervisors t hp
        by_cases hcb : (check_and_finalize_status s.review
            (update_or_create s.approvals u.id d c t).1 s.supervisors t).2.2
              = true
        · simp [runVote, supervisor_review_decision, hv, hp, hcb,
            hiff.mp hcb]
        · have hns : ¬ (check_and_finalize_status s.review
              (update_or_create s.approvals u.id d c t).1 s.supervisors
                t).1.status = Status.approved :=
            fun hh => hcb (hiff.mpr hh)
          simp [runVote, supervisor_review_decision, hv, hp, hcb, hns]
      · simp [runVote, supervisor_review_decision, hv, hp, and_not_self_iff]
  · intro s u tgt rr t
    cases hv : validate_superuser_permissions u with
    | error e => simp [runOverride, admin_override_review, hv, resultOk]
    | ok x =>
      by_cases hconf : tgt = Status.conflict
      · simp [runOverride, admin_override_review, hv, hconf, resultOk]
      · by_cases happ : tgt = Status.approved <;>
          simp [runOverride, admin_override_review, hv, hconf, happ,
            resultOk]
  · intro s u d notes t
    cases hv : validate_superuser_permissions u with
    | error e => simp [runResolve, resolve_conflict, hv, resultOk]
    | ok x =>
      by_cases hc : s.review.status = Status.conflict
      · by_cases happ : d = Decision.approved <;>
          simp [runResolve, resolve_conflict, hv, hc, happ, resultOk]
      · simp [runResolve, resolve_conflict, hv, hc, resultOk]
  · intro s data
    simp only [review_update]
    split <;> rfl

end AppReview
